import Mathlib

/-!
Verification development for the Space-Lander-Simulator core.

The Python core (src/core) is shallowly embedded below.  Machine floats are
modelled as exact rationals (ℚ) for the purely arithmetic state machines
(engines, fuel, PID, emergency scenarios, controller factory, gravity), and
as real numbers (ℝ) where the source computes Euclidean norms
(`np.linalg.norm`): the thrust allocator, the desired-force construction in
`Simulator.step`, and `Engine.__init__` direction normalisation.

Each definition carries a comment naming the source function it embeds.
-/

namespace SpaceLander

/-- Embeds `core/Landers/Engine.py`: per-engine state.  The geometric fields
(mount position, direction) live in the separate real-valued model below;
here we keep the scalar state used by the simulator/fuel/emergency layers.
`specific_impulse` is `none` when the Python object has no such attribute
(the `getattr` fallback then uses the lander-level default). -/
structure Engine where
  max_thrust : ℚ
  enabled : Bool
  throttle : ℚ
  specific_impulse : Option ℚ := none
deriving DecidableEq

/-- Embeds `Engine.current_thrust` (core/Landers/Engine.py lines 14-16):
`max_thrust * throttle if enabled else 0.0`. -/
def Engine.current_thrust (e : Engine) : ℚ :=
  if e.enabled then e.max_thrust * e.throttle else 0

/-- Embeds `core/Planet.py`: the fields used by `gravity_at_height`. -/
structure Planet where
  gravity : ℚ
  radius : ℚ
deriving DecidableEq

/-- Embeds `Planet.gravity_at_height` (core/Planet.py lines 13-22):
`h = max(0.0, height); return gravity * (radius / (radius + h))**2`.
(The `height is None` early return is not modelled: heights are totals here.) -/
def Planet.gravity_at_height (p : Planet) (height : ℚ) : ℚ :=
  p.gravity * (p.radius / (p.radius + max 0 height)) ^ 2

/-- Embeds the fuel-related state of `core/Landers/Lander.py`. -/
structure Lander where
  fuel_mass : ℚ
  fuel_consumption_rate : ℚ
  specific_impulse : ℚ := 300
  engines : List Engine
deriving DecidableEq

/-- Embeds `Lander.consume_fuel` (core/Landers/Lander.py lines 107-124):
`consumed = min(fuel_mass, max(0.0, amount_kg)); fuel_mass -= consumed;
fuel_consumption_rate = consumed / dt if dt > 0 else 0.0; return consumed`. -/
def Lander.consume_fuel (L : Lander) (amount_kg dt : ℚ) : Lander × ℚ :=
  let consumed := min L.fuel_mass (max 0 amount_kg)
  ({ L with
      fuel_mass := L.fuel_mass - consumed
      fuel_consumption_rate := if dt > 0 then consumed / dt else 0 },
   consumed)

/-- Embeds `Lander.set_engine_enabled` (core/Landers/Lander.py lines 79-83)
as a pure list operation: out-of-range indices are a no-op, and disabling an
engine also forces its throttle to 0. -/
def Lander.set_engine_enabled : List Engine → ℕ → Bool → List Engine
  | [], _, _ => []
  | e :: rest, 0, b =>
      { e with enabled := b, throttle := if b then e.throttle else 0 } :: rest
  | e :: rest, n + 1, b => e :: Lander.set_engine_enabled rest n b

/-- Embeds `Lander.set_engine_throttle` (core/Landers/Lander.py lines 85-87):
the throttle is clamped into [0, 1] before being stored. -/
def Lander.set_engine_throttle : List Engine → ℕ → ℚ → List Engine
  | [], _, _ => []
  | e :: rest, 0, t => { e with throttle := max 0 (min 1 t) } :: rest
  | e :: rest, n + 1, t => e :: Lander.set_engine_throttle rest n t

/-- Embeds `Lander.get_max_total_thrust` (core/Landers/Lander.py lines 73-74):
sum of `max_thrust` over enabled engines. -/
def Lander.get_max_total_thrust (engines : List Engine) : ℚ :=
  ((engines.filter (fun e => e.enabled)).map (fun e => e.max_thrust)).sum

namespace FuelManager

/-- The constant `FuelManager.STANDARD_GRAVITY = 9.80665`. -/
def STANDARD_GRAVITY : ℚ := 980665 / 100000

/-- Embeds `FuelManager._calculate_mass_flow` (core/FuelManager.py lines
57-71): engines with non-positive commanded thrust are skipped; the specific
impulse falls back to the lander-level default. Thrust list and engine list
are assumed of equal length (the Python indexes `engines[i]`). -/
def calculate_mass_flow (L : Lander) (applied_thrusts : List ℚ) : ℚ :=
  (applied_thrusts.zip L.engines).foldl
    (fun acc p =>
      if p.1 ≤ 0 then acc
      else
        let isp := p.2.specific_impulse.getD L.specific_impulse
        if isp > 0 then acc + p.1 / (isp * STANDARD_GRAVITY) else acc)
    0

/-- Embeds `FuelManager._zero_all_throttles` (core/FuelManager.py 73-76). -/
def zero_all_throttles (L : Lander) : Lander :=
  { L with engines := L.engines.map (fun e => { e with throttle := 0 }) }

/-- Embeds `FuelManager._update_throttles_from_thrusts` (core/FuelManager.py
78-82): `throttle = thrusts[i] / max_thrust if max_thrust > 0 else 0`. -/
def update_throttles_from_thrusts (L : Lander) (thrusts : List ℚ) : Lander :=
  { L with
      engines :=
        List.zipWith
          (fun e t =>
            { e with throttle := if e.max_thrust > 0 then t / e.max_thrust else 0 })
          L.engines thrusts }

/-- Embeds `FuelManager.consume_fuel_for_thrusts` (core/FuelManager.py lines
13-55), branch for branch.  The first component of the result is the updated
lander, the second the (possibly scaled) thrust array. -/
def consume_fuel_for_thrusts (L : Lander) (applied_thrusts : List ℚ) (dt : ℚ) :
    Lander × List ℚ :=
  if applied_thrusts.length = 0 then (L, [])
  else
    let total_thrust := applied_thrusts.sum
    if total_thrust ≤ 0 then (L, applied_thrusts)
    else
      let mass_flow := calculate_mass_flow L applied_thrusts
      if mass_flow ≤ 0 then (L, applied_thrusts)
      else
        let fuel_needed := mass_flow * dt
        if L.fuel_mass ≤ 0 then
          (zero_all_throttles L, applied_thrusts.map (fun _ => 0))
        else if fuel_needed > L.fuel_mass then
          let scale := L.fuel_mass / fuel_needed
          let scaled_thrusts := applied_thrusts.map (fun t => t * scale)
          let L1 := update_throttles_from_thrusts L scaled_thrusts
          ((L1.consume_fuel L1.fuel_mass dt).1, scaled_thrusts)
        else
          ((L.consume_fuel fuel_needed dt).1, applied_thrusts)

end FuelManager

namespace Simulator

/-- Embeds the manual-mode branch of `Simulator.step` (core/Simulator.py lines
70-92): clamp the caller-supplied scalar to the max total thrust, distribute
it equally among enabled engines, and set each enabled engine's throttle to
`per_engine / max_thrust` (a direct field assignment, not
`set_engine_throttle`).  Returns the updated engines and the applied-thrust
array. `none` for `thrust_force0` models Python's `thrust_force=None`. -/
def manual_mode_apply (engines : List Engine) (thrust_force0 : Option ℚ) :
    List Engine × List ℚ :=
  let tf0 := match thrust_force0 with | some t => t | none => 0
  let tf := min tf0 (Lander.get_max_total_thrust engines)
  let n_enabled := (engines.filter (fun e => e.enabled)).length
  if 0 < n_enabled ∧ 0 < tf then
    let per_engine := tf / (n_enabled : ℚ)
    (engines.map
        (fun e =>
          if e.enabled then { e with throttle := per_engine / e.max_thrust }
          else { e with throttle := 0 }),
     engines.map (fun e => if e.enabled then per_engine else 0))
  else
    (engines.map (fun e => { e with throttle := 0 }),
     engines.map (fun _ => 0))

end Simulator

namespace EmergencyScenarioHandler

/-- Embeds `_apply_initial_scenario` for the `engine_failure{count}` scenario
(core/emergencies/EmergencyScenarioHandler.py lines 31-38):
`for i in range(min(count, len(engines))): set_engine_enabled(i, False)`. -/
def apply_engine_failure (count : ℕ) (engines : List Engine) : List Engine :=
  (List.range (min count engines.length)).foldl
    (fun es i => Lander.set_engine_enabled es i false) engines

/-- Embeds the engine part of `reset` for the `engine_failure` scenario
(core/emergencies/EmergencyScenarioHandler.py lines 128-138): re-enable all
engines, then re-apply the initial scenario. -/
def reset_engine_failure (count : ℕ) (engines : List Engine) : List Engine :=
  apply_engine_failure count
    ((List.range engines.length).foldl
      (fun es i => Lander.set_engine_enabled es i true) engines)

/-- Embeds the pruning `while` loop of `modify_throttle_command`
(core/emergencies/EmergencyScenarioHandler.py lines 101-108): pop history
entries from the front while their issue time is strictly below the cutoff. -/
def prune_old (cutoff : ℚ) : List (ℚ × ℚ) → List (ℚ × ℚ)
  | [] => []
  | (t, c) :: rest => if t < cutoff then prune_old cutoff rest else (t, c) :: rest

/-- Embeds the selection loop of `modify_throttle_command` (lines 110-122):
starting from `actual_throttle = 0.0`, replace it by each command whose age
`now - issue_time` has reached the delay, scanning oldest to newest. -/
def select_delayed (now delay : ℚ) (hist : List (ℚ × ℚ)) : ℚ :=
  hist.foldl (fun acc p => if now - p.1 ≥ delay then p.2 else acc) 0

/-- Embeds `modify_throttle_command` (core/emergencies/
EmergencyScenarioHandler.py lines 82-126) for one engine's history (a list of
`(issue_time, commanded_throttle)` pairs in append order).  The guard
`delay > 0` is the Python `scenario_type == "response_lag" and
response_lag_delay > 0`; otherwise the desired throttle passes through
unchanged.  Returns the retained history and the returned throttle. -/
def modify_throttle_command (delay now : ℚ) (hist : List (ℚ × ℚ))
    (desired_throttle : ℚ) : List (ℚ × ℚ) × ℚ :=
  if 0 < delay then
    let h1 := hist ++ [(now, desired_throttle)]
    let h2 := prune_old (now - delay - 1) h1
    (h2, select_delayed now delay h2)
  else (hist, desired_throttle)

end EmergencyScenarioHandler

/-- Embeds the construction state of `core/controllers/pid_controller.py`:
gains, setpoint, output limits and the mutable `integral` / `prev_error`
state.  `output_limits` is `none` for Python `None`; when present it is the
`(lo, hi)` tuple of floats used throughout the repository. -/
structure PIDController where
  kp : ℚ
  ki : ℚ
  kd : ℚ
  setpoint : ℚ
  activation_altitude : ℚ := 500
  integral : ℚ := 0
  prev_error : ℚ := 0
  output_limits : Option (ℚ × ℚ) := none
deriving DecidableEq

/-- Embeds `PIDController._clamp_output` (pid_controller.py lines 24-32). -/
def PIDController.clamp_output (c : PIDController) (v : ℚ) : ℚ :=
  match c.output_limits with
  | none => v
  | some (lo, hi) => if v < lo then lo else if v > hi then hi else v

/-- The raw (unclamped) PID output computed inside `PIDController.update`
(pid_controller.py lines 46-64): `kp*error + ki*integral + kd*derivative`
with the `dt <= 0` guard replacing dt by `1e-6`. -/
def PIDController.raw_output (c : PIDController) (measurement dt0 : ℚ) : ℚ :=
  let dt := if dt0 ≤ 0 then 1 / 1000000 else dt0
  let error := c.setpoint - measurement
  let derivative := (error - c.prev_error) / dt
  c.kp * error + c.ki * c.integral + c.kd * derivative

/-- Embeds `PIDController.update` (pid_controller.py lines 34-84): the
integral is incremented by `error*dt`, the raw output is clamped, and the
anti-windup logic either backs the increment out (on saturation) or clamps
the integral magnitude to `abs((hi-lo)/(ki+1e-9))*0.5`. -/
def PIDController.update (c : PIDController) (measurement dt0 : ℚ) :
    PIDController × ℚ :=
  let dt := if dt0 ≤ 0 then 1 / 1000000 else dt0
  let error := c.setpoint - measurement
  let integral_increment := error * dt
  let integral1 := c.integral + integral_increment
  let raw := c.raw_output measurement dt0
  let output := c.clamp_output raw
  let integral2 :=
    match c.output_limits with
    | none => integral1
    | some (lo, hi) =>
        if c.ki ≠ 0 then
          if raw > hi ∨ raw < lo then integral1 - integral_increment
          else
            let max_integral_magnitude := |(hi - lo) / (c.ki + 1 / 1000000000)| * (1 / 2)
            if |integral1| > max_integral_magnitude then
              if 0 < integral1 then max_integral_magnitude else -max_integral_magnitude
            else integral1
        else integral1
  ({ c with integral := integral2, prev_error := error }, output)

/-- Embeds the construction state of `core/controllers/LQRController.py`
relevant to the factory: cost weights (diagonal Q, scalar R) and setpoint.
The Riccati gain solve itself is not modelled (only construction dispatch is
at issue in the factory claims). -/
structure LQRController where
  Qdiag : ℚ × ℚ
  R : ℚ
  setpoint : ℚ
deriving DecidableEq

/-- Embeds the construction state of `core/controllers/MPCController.py`
relevant to the factory. -/
structure MPCController where
  setpoint : ℚ
  horizon : ℤ
  Qdiag : ℚ × ℚ
  R : ℚ
  u_min : ℚ
  u_max : ℚ
  dt_nom : ℚ
  activation_altitude : ℚ := 500
  gravity : ℚ := 981 / 100
deriving DecidableEq

/-- The three controller variants produced by the factory. -/
inductive Controller where
  | pid (c : PIDController)
  | lqr (c : LQRController)
  | mpc (c : MPCController)
deriving DecidableEq

/-- The keyword arguments forwarded by `make_controller` (`kwargs.get(...)`
returns `None`, i.e. `none`, for missing keys). -/
structure ControllerKwargs where
  kp : Option ℚ := none
  ki : Option ℚ := none
  kd : Option ℚ := none
  setpoint : Option ℚ := none
  output_limits : Option (ℚ × ℚ) := none
  Q : Option (ℚ × ℚ) := none
  R : Option ℚ := none
  horizon : Option ℤ := none
  dt_nom : Option ℚ := none
deriving DecidableEq

/-- Python `str.lower()` for the ASCII kind strings used by the factory. -/
def py_lower (s : String) : String := ⟨s.data.map Char.toLower⟩

/-- Python `str.strip()`: drop leading and trailing whitespace. -/
def py_strip (s : String) : String :=
  ⟨((s.data.dropWhile Char.isWhitespace).reverse.dropWhile Char.isWhitespace).reverse⟩

/-- Embeds `make_controller` (core/controllers/controller_factory.py lines
5-48).  `kind` is `Option String` (`none` for Python `None`); the Python
`kind.strip().lower() if kind else "lqr"` treats `None` and `""` as falsy.
Branches that would evaluate `float(None)` / `int(None)` in Python are
`TypeError`s; the final branch is the `ValueError` for unknown kinds. -/
def make_controller (kind : Option String) (kw : ControllerKwargs) :
    Except String Controller :=
  let k := match kind with
    | none => "lqr"
    | some s => if s = "" then "lqr" else py_lower (py_strip s)
  if k = "pid" then
    match kw.kp, kw.ki, kw.kd, kw.setpoint with
    | some kp, some ki, some kd, some sp =>
        .ok (.pid { kp := kp, ki := ki, kd := kd, setpoint := sp,
                    output_limits := kw.output_limits })
    | _, _, _, _ => .error "TypeError: float() argument is None"
  else if k = "lqr" then
    match kw.setpoint with
    | some sp =>
        .ok (.lqr { Qdiag := kw.Q.getD (1 / 100, 200), R := kw.R.getD 1,
                    setpoint := sp })
    | none => .error "TypeError: float() argument is None"
  else if k = "mpc" then
    match kw.setpoint, kw.horizon, kw.dt_nom with
    | some sp, some hz, some dtn =>
        .ok (.mpc { setpoint := sp, horizon := hz,
                    Qdiag := kw.Q.getD (1 / 100, 200), R := kw.R.getD 1,
                    u_min := (kw.output_limits.getD (-50, 20)).1,
                    u_max := (kw.output_limits.getD (-50, 20)).2,
                    dt_nom := dtn })
    | _, _, _ => .error "TypeError: float() argument is None"
  else
    .error ("Unknown controller kind: " ++ k ++ ". Must be 'lqr', 'pid', or 'mpc'")

/-- `config.PID_DEFAULTS` as forwarded by `make_controller_by_kind`
(core/config.py lines 23-30). -/
def PID_DEFAULTS : ControllerKwargs :=
  { kp := some (3 / 5), ki := some (1 / 100), kd := some 3,
    setpoint := some (-3), output_limits := some (-10, 5) }

/-- `config.LQR_DEFAULTS` (core/config.py lines 34-39). -/
def LQR_DEFAULTS : ControllerKwargs :=
  { setpoint := some (-3) }

/-- `config.MPC_DEFAULTS` (core/config.py lines 43-52). -/
def MPC_DEFAULTS : ControllerKwargs :=
  { setpoint := some (-3), horizon := some 10,
    output_limits := some (-50, 20), dt_nom := some (1 / 10) }

/-- `config.DEFAULT_CONTROLLER_KIND = "mpc"` (core/config.py line 3). -/
def DEFAULT_CONTROLLER_KIND : String := "mpc"

/-- Embeds `make_controller_by_kind` (core/config.py lines 86-112).  The
Python unknown-kind branch recurses with `DEFAULT_CONTROLLER_KIND`; since
that constant is `"mpc"`, the recursion resolves in one step, which is
written out here directly. -/
def make_controller_by_kind (kind : Option String) : Except String Controller :=
  let k0 := match kind with | none => DEFAULT_CONTROLLER_KIND | some s => s
  let k := if k0 = "" then DEFAULT_CONTROLLER_KIND else py_lower (py_strip k0)
  if k = "pid" then make_controller (some "pid") PID_DEFAULTS
  else if k = "lqr" then make_controller (some "lqr") LQR_DEFAULTS
  else if k = "mpc" then make_controller (some "mpc") MPC_DEFAULTS
  else make_controller (some "mpc") MPC_DEFAULTS

/-! ### Real-valued geometric model

The thrust allocator, the desired-force construction in `Simulator.step` and
the direction normalisation in `Engine.__init__` compute Euclidean norms
(`np.linalg.norm`), so they are modelled over ℝ. -/

/-- A 3-vector over ℝ (`np.ndarray` of length 3). -/
structure Vec3 where
  x : ℝ
  y : ℝ
  z : ℝ

/-- Componentwise sum. -/
def Vec3.add (a b : Vec3) : Vec3 := ⟨a.x + b.x, a.y + b.y, a.z + b.z⟩

/-- Componentwise difference. -/
def Vec3.sub (a b : Vec3) : Vec3 := ⟨a.x - b.x, a.y - b.y, a.z - b.z⟩

/-- Scalar multiple. -/
def Vec3.smul (c : ℝ) (a : Vec3) : Vec3 := ⟨c * a.x, c * a.y, c * a.z⟩

/-- Dot product (`np.dot`). -/
def Vec3.dot (a b : Vec3) : ℝ := a.x * b.x + a.y * b.y + a.z * b.z

/-- Cross product (`np.cross`). -/
def Vec3.cross (a b : Vec3) : Vec3 :=
  ⟨a.y * b.z - a.z * b.y, a.z * b.x - a.x * b.z, a.x * b.y - a.y * b.x⟩

/-- Squared Euclidean norm of a 3-vector. -/
def Vec3.normSq (a : Vec3) : ℝ := a.x ^ 2 + a.y ^ 2 + a.z ^ 2

/-- `np.linalg.norm` of a 3-vector. -/
noncomputable def Vec3.norm (a : Vec3) : ℝ := Real.sqrt a.normSq

/-- Embeds the direction normalisation of `Engine.__init__`
(core/Landers/Engine.py lines 8-10): `direction = dirv / norm if norm > 0
else np.array([0.0, 1.0, 0.0])`. -/
noncomputable def Engine.init_direction (dirv : Vec3) : Vec3 :=
  if 0 < dirv.norm then
    ⟨dirv.x / dirv.norm, dirv.y / dirv.norm, dirv.z / dirv.norm⟩
  else ⟨0, 1, 0⟩

/-- The geometric engine data consumed by `ThrustAllocator`
(core/ThrustAllocator.py): `.position`, `.direction`, `.max_thrust`,
`.enabled`. -/
structure AllocEngine where
  max_thrust : ℝ
  enabled : Bool
  position : Vec3
  direction : Vec3

namespace ThrustAllocator

/-- The per-engine bound used by `allocate` (core/ThrustAllocator.py line
40): `max_thrust if enabled else 0.0`. -/
def effective_max (e : AllocEngine) : ℝ := if e.enabled then e.max_thrust else 0

/-- The bound vector `max_thrusts` of core/ThrustAllocator.py line 40. -/
def max_thrusts (engines : List AllocEngine) : List ℝ :=
  engines.map effective_max

/-- `np.clip(v, 0.0, maxs)` componentwise: `min(max(v_i, 0), maxs_i)`. -/
def clip_to (v maxs : List ℝ) : List ℝ :=
  List.zipWith (fun a m => min (max a 0) m) v maxs

/-- Net force `(f_dirs) @ applied` produced by per-engine thrusts. -/
def net_force (engines : List AllocEngine) (applied : List ℝ) : Vec3 :=
  (List.zipWith (fun (e : AllocEngine) t => Vec3.smul t e.direction) engines applied).foldl
    Vec3.add ⟨0, 0, 0⟩

/-- Net torque `(torques) @ applied` with moment arms
`cross(position, direction)` (core/ThrustAllocator.py line 26). -/
def net_torque (engines : List AllocEngine) (applied : List ℝ) : Vec3 :=
  (List.zipWith (fun (e : AllocEngine) t => Vec3.smul t (Vec3.cross e.position e.direction))
      engines applied).foldl Vec3.add ⟨0, 0, 0⟩

/-- Embeds `ThrustAllocator.allocate` (core/ThrustAllocator.py lines 13-72).
The unconstrained least-squares solution `np.linalg.lstsq(A, b)` is passed in
as `x` (the properties proved below hold for every value the solver could
return; on solver failure the Python fallback is `x = 0`).  The clipping,
residual test, capacity-weighted redistribution and final re-clip follow the
source line by line. -/
noncomputable def allocate (engines : List AllocEngine)
    (desired_force desired_torque : Vec3) (x : List ℝ) : List ℝ :=
  if engines.length = 0 then []
  else
    let maxs := max_thrusts engines
    let applied := clip_to x maxs
    let fres := Vec3.sub desired_force (net_force engines applied)
    let tres := Vec3.sub desired_torque (net_torque engines applied)
    let resid_norm := Real.sqrt (fres.normSq + tres.normSq)
    let applied2 :=
      if 1 / 1000000 < resid_norm then
        let capacity := List.zipWith (fun m a => m - a) maxs applied
        let total_capacity := capacity.sum
        if 1 / 1000000000 < total_capacity then
          let dir_align := engines.map (fun e => max 0 (Vec3.dot e.direction desired_force))
          let weights := List.zipWith (fun w c => w * c) dir_align capacity
          let wsum := weights.sum
          if wsum ≤ 1 / 10 ^ 12 then clip_to applied maxs
          else
            let weightsN := weights.map (fun w => w / wsum)
            let add_total := min (Real.sqrt desired_force.normSq) total_capacity
            let add := weightsN.map (fun w => w * add_total)
            List.zipWith min (List.zipWith (fun a b => a + b) applied add) maxs
        else applied
      else applied
    clip_to applied2 maxs

end ThrustAllocator

namespace Simulator

/-- Embeds the desired-force construction of the controller branch of
`Simulator.step` (core/Simulator.py lines 50-54):
`total_required = mass * (desired_accel + g)` (no clamping), then the thrust
vector is normalised with an `1e-12` guard and scaled by `total_required`. -/
noncomputable def desired_force_vec (mass g desired_accel : ℝ)
    (thrust_vector : Vec3) : Vec3 :=
  let total_required := mass * (desired_accel + g)
  let nrm := thrust_vector.norm + 1 / 10 ^ 12
  ⟨thrust_vector.x / nrm * total_required,
   thrust_vector.y / nrm * total_required,
   thrust_vector.z / nrm * total_required⟩

end Simulator

/-! ### Concrete values used by witnesses -/

/-- A small concrete lander: 5 kg of fuel and one enabled 10 N engine. -/
def sample_lander : Lander :=
  { fuel_mass := 5, fuel_consumption_rate := 0,
    engines := [⟨10, true, 0, none⟩] }

/-- A concrete PID controller with limits [-1, 1], unit gains and a non-zero
integral state. -/
def sample_pid : PIDController :=
  { kp := 1, ki := 1, kd := 0, setpoint := 0, integral := 7, prev_error := 0,
    output_limits := some (-1, 1) }

/-- A concrete enabled engine (Falcon-9 Merlin figures). -/
def merlin_engine : Engine :=
  { max_thrust := 845000, enabled := true, throttle := 0 }

/-- A concrete geometric engine: capacity 2, mounted at the origin,
pointing up. -/
noncomputable def sample_alloc_engine : AllocEngine :=
  { max_thrust := 2, enabled := true, position := ⟨0, 0, 0⟩,
    direction := ⟨0, 1, 0⟩ }

/-! ### Helper lemmas -/

theorem Lander.consume_fuel_fuel_eq (L : Lander) (a dt : ℚ) :
    (L.consume_fuel a dt).1.fuel_mass = L.fuel_mass - (L.consume_fuel a dt).2 := rfl

theorem Lander.consume_fuel_nonneg (L : Lander) (a dt : ℚ) (h : 0 ≤ L.fuel_mass) :
    0 ≤ (L.consume_fuel a dt).2 :=
  le_min h (le_max_left 0 a)

theorem Lander.consume_fuel_le (L : Lander) (a dt : ℚ) :
    (L.consume_fuel a dt).2 ≤ L.fuel_mass :=
  min_le_left _ _

theorem Lander.consume_fuel_fst_nonneg (L : Lander) (a dt : ℚ)
    (h : 0 ≤ L.fuel_mass) : 0 ≤ (L.consume_fuel a dt).1.fuel_mass := by
  rw [Lander.consume_fuel_fuel_eq]
  have := L.consume_fuel_le a dt
  linarith

theorem consume_fuel_foldl_nonneg (ops : List (ℚ × ℚ)) :
    ∀ L : Lander, 0 ≤ L.fuel_mass →
      0 ≤ (ops.foldl (fun st p => (st.consume_fuel p.1 p.2).1) L).fuel_mass := by
  induction ops with
  | nil => exact fun L h => h
  | cons p rest ih =>
      intro L h
      exact ih _ (L.consume_fuel_fst_nonneg p.1 p.2 h)

theorem consume_fuel_for_thrusts_fuel (L : Lander) (ts : List ℚ) (dt : ℚ)
    (h : 0 ≤ L.fuel_mass) :
    ∃ c, 0 ≤ c ∧ c ≤ L.fuel_mass ∧
      (FuelManager.consume_fuel_for_thrusts L ts dt).1.fuel_mass = L.fuel_mass - c := by
  unfold FuelManager.consume_fuel_for_thrusts
  by_cases h1 : ts.length = 0
  · exact ⟨0, le_refl 0, h, by simp [h1]⟩
  by_cases h2 : ts.sum ≤ 0
  · exact ⟨0, le_refl 0, h, by simp [h1, h2]⟩
  by_cases h3 : FuelManager.calculate_mass_flow L ts ≤ 0
  · exact ⟨0, le_refl 0, h, by simp [h1, h2, h3]⟩
  by_cases h4 : L.fuel_mass ≤ 0
  · exact ⟨0, le_refl 0, h,
      by simp [h1, h2, h3, h4, FuelManager.zero_all_throttles]⟩
  by_cases h5 : FuelManager.calculate_mass_flow L ts * dt > L.fuel_mass
  · refine ⟨((FuelManager.update_throttles_from_thrusts L
        (ts.map (fun t =>
          t * (L.fuel_mass / (FuelManager.calculate_mass_flow L ts * dt))))).consume_fuel
        (FuelManager.update_throttles_from_thrusts L
          (ts.map (fun t =>
            t * (L.fuel_mass / (FuelManager.calculate_mass_flow L ts * dt))))).fuel_mass
        dt).2, Lander.consume_fuel_nonneg _ _ _ h, Lander.consume_fuel_le _ _ _, ?_⟩
    have heq := Lander.consume_fuel_fuel_eq
      (FuelManager.update_throttles_from_thrusts L
        (ts.map (fun t =>
          t * (L.fuel_mass / (FuelManager.calculate_mass_flow L ts * dt)))))
      (FuelManager.update_throttles_from_thrusts L
        (ts.map (fun t =>
          t * (L.fuel_mass / (FuelManager.calculate_mass_flow L ts * dt))))).fuel_mass
      dt
    simp [h1, h2, h3, h4, h5]
    exact heq
  · refine ⟨(L.consume_fuel (FuelManager.calculate_mass_flow L ts * dt) dt).2,
      Lander.consume_fuel_nonneg _ _ _ h, Lander.consume_fuel_le _ _ _, ?_⟩
    simp [h1, h2, h3, h4, h5]
    exact Lander.consume_fuel_fuel_eq _ _ _

/-! ### Claim theorems -/

/-- C2: For every call to `Lander.consume_fuel` (with any requested amount)
from a state with non-negative fuel, `fuel_mass_after = fuel_mass_before −
consumed` with `0 ≤ consumed ≤ fuel_mass_before`; the fuel effect of
`FuelManager.consume_fuel_for_thrusts` has the same shape; and fuel is never
negative after any sequence of consume-fuel operations. -/
theorem fuel_conservation (L : Lander) (amount dt dt2 : ℚ) (ts : List ℚ)
    (ops : List (ℚ × ℚ)) (h : 0 ≤ L.fuel_mass) :
    ((L.consume_fuel amount dt).1.fuel_mass
        = L.fuel_mass - (L.consume_fuel amount dt).2 ∧
      0 ≤ (L.consume_fuel amount dt).2 ∧
      (L.consume_fuel amount dt).2 ≤ L.fuel_mass) ∧
    (∃ c, 0 ≤ c ∧ c ≤ L.fuel_mass ∧
      (FuelManager.consume_fuel_for_thrusts L ts dt2).1.fuel_mass
        = L.fuel_mass - c) ∧
    0 ≤ (ops.foldl (fun st p => (st.consume_fuel p.1 p.2).1) L).fuel_mass :=
  ⟨⟨L.consume_fuel_fuel_eq amount dt, L.consume_fuel_nonneg amount dt h,
    L.consume_fuel_le amount dt⟩,
   consume_fuel_for_thrusts_fuel L ts dt2 h,
   consume_fuel_foldl_nonneg ops L h⟩

/-- C2 witness: `fuel_conservation` applied to the concrete `sample_lander`
(5 kg of fuel, one 10 N engine), a 3 kg request, and the one-step sequence
[(2, 1)]. -/
theorem fuel_conservation_witness :
    (0 : ℚ) ≤ sample_lander.fuel_mass ∧
    (((sample_lander.consume_fuel 3 1).1.fuel_mass
        = sample_lander.fuel_mass - (sample_lander.consume_fuel 3 1).2 ∧
      0 ≤ (sample_lander.consume_fuel 3 1).2 ∧
      (sample_lander.consume_fuel 3 1).2 ≤ sample_lander.fuel_mass) ∧
    (∃ c, 0 ≤ c ∧ c ≤ sample_lander.fuel_mass ∧
      (FuelManager.consume_fuel_for_thrusts sample_lander [1] 1).1.fuel_mass
        = sample_lander.fuel_mass - c) ∧
    0 ≤ ([((2 : ℚ), (1 : ℚ))].foldl (fun st p => (st.consume_fuel p.1 p.2).1)
        sample_lander).fuel_mass) :=
  ⟨by norm_num [sample_lander],
   fuel_conservation sample_lander 3 1 1 [1] [(2, 1)]
     (by norm_num [sample_lander])⟩

/-- C1 (code-bug evaluation): the manual-mode branch of `Simulator.step`
assigns `throttle = per_engine / max_thrust` directly; on two enabled engines
with max thrusts 100 and 10 and a requested total of 110 (within the max
total thrust), the second engine's throttle becomes 11/2 > 1, violating the
documented `0 ≤ throttle ≤ 1` invariant. -/
theorem manual_mode_throttle_exceeds_one :
    (Simulator.manual_mode_apply
        [⟨100, true, 0, none⟩, ⟨10, true, 0, none⟩] (some 110)).1.map
        (fun e => e.throttle) = [11 / 20, 11 / 2] ∧ (1 : ℚ) < 11 / 2 := by
  constructor
  · norm_num [Simulator.manual_mode_apply, Lander.get_max_total_thrust]
  · norm_num

/-- C8: with output limits configured and `ki ≠ 0`, an update whose raw
(unclamped) output exceeds the limits leaves the integral accumulator
exactly where it was (the increment `error*dt` is backed out). -/
theorem pid_antiwindup (c : PIDController) (m dt lo hi : ℚ)
    (hlim : c.output_limits = some (lo, hi)) (hki : c.ki ≠ 0)
    (hsat : hi < c.raw_output m dt ∨ c.raw_output m dt < lo) :
    (c.update m dt).1.integral = c.integral := by
  unfold PIDController.update
  rw [hlim]
  simp only [hki, if_true, ne_eq, not_false_eq_true, gt_iff_lt]
  rw [if_pos hsat]
  ring

/-- C8 witness: a concrete saturated update (raw output 17 against limits
[-1, 1]) leaves the integral at 7. -/
theorem pid_antiwindup_witness :
    sample_pid.output_limits = some (-1, 1) ∧
    sample_pid.ki ≠ 0 ∧
    ((1 : ℚ) < sample_pid.raw_output (-10) 1 ∨
      sample_pid.raw_output (-10) 1 < -1) ∧
    (sample_pid.update (-10) 1).1.integral = sample_pid.integral := by
  refine ⟨rfl, by norm_num [sample_pid],
    Or.inl (by norm_num [sample_pid, PIDController.raw_output]), ?_⟩
  exact pid_antiwindup sample_pid (-10) 1 (-1) 1 rfl
    (by norm_num [sample_pid])
    (Or.inl (by norm_num [sample_pid, PIDController.raw_output]))

/-- C9 counterexample: the claim quantifies over every planet with positive
radius but arbitrary surface gravity; a planet with `gravity = 0` has a
constant (zero) gravity profile, so `gravity_at_height` is not strictly
decreasing for it. -/
theorem gravity_strict_decrease_counterexample :
    ¬ (∀ p : Planet, 0 < p.radius →
        p.gravity_at_height 0 = p.gravity ∧
        ∀ h1 h2 : ℚ, 0 < h1 → h1 < h2 →
          p.gravity_at_height h2 < p.gravity_at_height h1) := by
  intro hAll
  have h := (hAll ⟨0, 1⟩ (by norm_num)).2 1 2 (by norm_num) (by norm_num)
  norm_num [Planet.gravity_at_height] at h

/-- C9 (amended): for every planet with positive radius and positive surface
gravity, `gravity_at_height 0 = gravity` and `gravity_at_height` is strictly
decreasing on positive heights. -/
theorem gravity_at_height_spec (p : Planet) (h1 h2 : ℚ)
    (hg : 0 < p.gravity) (hR : 0 < p.radius) (hh1 : 0 < h1) (h12 : h1 < h2) :
    p.gravity_at_height 0 = p.gravity ∧
    p.gravity_at_height h2 < p.gravity_at_height h1 := by
  constructor
  · unfold Planet.gravity_at_height
    rw [max_self, add_zero, div_self (ne_of_gt hR)]
    ring
  · unfold Planet.gravity_at_height
    rw [max_eq_right hh1.le, max_eq_right (hh1.trans h12).le]
    have hd1 : 0 < p.radius + h1 := by linarith
    have hd2 : 0 < p.radius + h2 := by linarith
    have hlt : p.radius / (p.radius + h2) < p.radius / (p.radius + h1) :=
      div_lt_div_of_pos_left hR hd1 (by linarith)
    have hnn : 0 ≤ p.radius / (p.radius + h2) := le_of_lt (div_pos hR hd2)
    exact mul_lt_mul_of_pos_left
      (pow_lt_pow_left hlt hnn (by norm_num)) hg

/-- C9 witness: `gravity_at_height_spec` at the concrete planet
(g0 = 10, R = 100) and heights 1 < 2. -/
theorem gravity_at_height_spec_witness :
    (0 : ℚ) < 10 ∧ (0 : ℚ) < 100 ∧ (0 : ℚ) < 1 ∧ (1 : ℚ) < 2 ∧
    (({ gravity := 10, radius := 100 } : Planet).gravity_at_height 0
        = ({ gravity := 10, radius := 100 } : Planet).gravity ∧
      ({ gravity := 10, radius := 100 } : Planet).gravity_at_height 2
        < ({ gravity := 10, radius := 100 } : Planet).gravity_at_height 1) :=
  ⟨by norm_num, by norm_num, by norm_num, by norm_num,
   gravity_at_height_spec { gravity := 10, radius := 100 } 1 2
     (by norm_num) (by norm_num) (by norm_num) (by norm_num)⟩

theorem select_delayed_foldl (now delay : ℚ) (hist : List (ℚ × ℚ)) :
    ∀ acc : ℚ,
      hist.foldl (fun a p => if now - p.1 ≥ delay then p.2 else a) acc
        = (((hist.filter (fun p => decide (delay ≤ now - p.1))).getLast?).map
            Prod.snd).getD acc := by
  induction hist with
  | nil => intro acc; rfl
  | cons q rest ih =>
      intro acc
      simp only [List.foldl_cons, List.filter_cons]
      by_cases hq : delay ≤ now - q.1
      · rw [if_pos hq]
        rw [ih q.2]
        simp only [hq, decide_eq_true_eq, if_true, decide_eq_true hq]
        cases hfr : rest.filter (fun p => decide (delay ≤ now - p.1)) with
        | nil => simp [hfr]
        | cons a l =>
            have hx := (List.getLast?_eq_getLast (a :: l) (by simp)).symm
            simp [hfr, List.getLast?_cons_cons, ← hx]
      · rw [if_neg hq]
        rw [ih acc]
        simp [hq]

theorem select_delayed_eq (now delay : ℚ) (hist : List (ℚ × ℚ)) :
    EmergencyScenarioHandler.select_delayed now delay hist
      = (((hist.filter (fun p => decide (delay ≤ now - p.1))).getLast?).map
          Prod.snd).getD 0 :=
  select_delayed_foldl now delay hist 0

/-- C5 counterexample: with `delay = 1`, a command issued at time 0 (throttle
1/2) has aged 10 ≥ delay by the second call at time 10, so the claim as
stated requires the returned throttle 1/2; but the pruning step (cutoff
`delay + 1` seconds) has dropped it, and the call returns 0. -/
theorem response_lag_counterexample :
    EmergencyScenarioHandler.modify_throttle_command 1 0 [] (1 / 2)
      = ([(0, 1 / 2)], 0) ∧
    EmergencyScenarioHandler.modify_throttle_command 1 10 [(0, 1 / 2)] (3 / 4)
      = ([(10, 3 / 4)], 0) ∧
    (1 : ℚ) ≤ 10 - 0 ∧ (0 : ℚ) ≠ 1 / 2 := by
  refine ⟨?_, ?_, by norm_num, by norm_num⟩ <;>
    norm_num [EmergencyScenarioHandler.modify_throttle_command,
      EmergencyScenarioHandler.prune_old, EmergencyScenarioHandler.select_delayed]

/-- C5 (amended): with `delay > 0`, `modify_throttle_command` retains exactly
the pruned history (entries older than `delay + 1` seconds dropped) with the
new command appended; the returned throttle is the throttle of the last
*retained* command whose age has reached `delay`, and 0 when no retained
command qualifies; every command that can contribute to the result is at
least `delay` old (so the just-issued command never is). -/
theorem response_lag_spec (delay now desired : ℚ) (hist : List (ℚ × ℚ))
    (hd : 0 < delay) :
    (EmergencyScenarioHandler.modify_throttle_command delay now hist desired).1
      = EmergencyScenarioHandler.prune_old (now - delay - 1)
          (hist ++ [(now, desired)]) ∧
    (EmergencyScenarioHandler.modify_throttle_command delay now hist desired).2
      = ((((EmergencyScenarioHandler.modify_throttle_command delay now hist
            desired).1.filter (fun p => decide (delay ≤ now - p.1))).getLast?).map
          Prod.snd).getD 0 ∧
    ((EmergencyScenarioHandler.modify_throttle_command delay now hist
        desired).1.filter (fun p => decide (delay ≤ now - p.1))).all
      (fun p => decide (p.1 ≤ now - delay)) = true := by
  unfold EmergencyScenarioHandler.modify_throttle_command
  rw [if_pos hd]
  refine ⟨rfl, select_delayed_eq now delay _, ?_⟩
  rw [List.all_eq_true]
  intro p hp
  rw [List.mem_filter] at hp
  have hage : delay ≤ now - p.1 := of_decide_eq_true hp.2
  simp only [decide_eq_true_eq]
  linarith

/-- C5 witness: `response_lag_spec` at delay 1, time 2 over the history
[(0, 1/2)] with desired 3/4: the retained qualifying command is (0, 1/2) and
the call returns 1/2. -/
theorem response_lag_spec_witness :
    (0 : ℚ) < 1 ∧
    ((EmergencyScenarioHandler.modify_throttle_command 1 2 [(0, 1 / 2)] (3 / 4)).1
        = EmergencyScenarioHandler.prune_old (2 - 1 - 1) ([(0, 1 / 2)] ++ [(2, 3 / 4)]) ∧
      (EmergencyScenarioHandler.modify_throttle_command 1 2 [(0, 1 / 2)] (3 / 4)).2
        = ((((EmergencyScenarioHandler.modify_throttle_command 1 2 [(0, 1 / 2)]
              (3 / 4)).1.filter (fun p => decide ((1 : ℚ) ≤ 2 - p.1))).getLast?).map
            Prod.snd).getD 0 ∧
      ((EmergencyScenarioHandler.modify_throttle_command 1 2 [(0, 1 / 2)]
          (3 / 4)).1.filter (fun p => decide ((1 : ℚ) ≤ 2 - p.1))).all
        (fun p => decide (p.1 ≤ 2 - 1)) = true) :=
  ⟨by norm_num, response_lag_spec 1 2 (3 / 4) [(0, 1 / 2)] (by norm_num)⟩

/-- C6 counterexample: constructing via `make_controller_by_kind` with the
unrecognized kind "foo" does not raise; it silently returns the default
(MPC) controller built from `MPC_DEFAULTS`. -/
theorem controller_unknown_kind_counterexample :
    make_controller_by_kind (some "foo")
      = Except.ok (Controller.mpc
          { setpoint := -3, horizon := 10, Qdiag := (1 / 100, 200),
            R := 1, u_min := -50, u_max := 20, dt_nom := 1 / 10 }) := by
  rfl

/-- C6 (amended): `make_controller` raises `ValueError` for every non-empty
kind string whose stripped lowercase form is none of "pid", "lqr", "mpc";
but `make_controller_by_kind` on such a kind silently falls back to the
default kind (`"mpc"`) instead of raising. -/
theorem make_controller_unknown_kind (s : String) (kw : ControllerKwargs)
    (hne : s ≠ "") (hp : py_lower (py_strip s) ≠ "pid")
    (hl : py_lower (py_strip s) ≠ "lqr") (hm : py_lower (py_strip s) ≠ "mpc") :
    make_controller (some s) kw
      = Except.error ("Unknown controller kind: " ++ py_lower (py_strip s)
          ++ ". Must be 'lqr', 'pid', or 'mpc'") ∧
    make_controller_by_kind (some s)
      = make_controller (some "mpc") MPC_DEFAULTS := by
  constructor
  · unfold make_controller
    simp [hne, hp, hl, hm]
  · unfold make_controller_by_kind
    simp [hne, hp, hl, hm]

/-- C6 witness: `make_controller_unknown_kind` at the concrete kind "foo"
with empty keyword arguments. -/
theorem make_controller_unknown_kind_witness :
    ("foo" : String) ≠ "" ∧ py_lower (py_strip "foo") ≠ "pid" ∧
    py_lower (py_strip "foo") ≠ "lqr" ∧ py_lower (py_strip "foo") ≠ "mpc" ∧
    (make_controller (some "foo") {}
        = Except.error ("Unknown controller kind: " ++ py_lower (py_strip "foo")
            ++ ". Must be 'lqr', 'pid', or 'mpc'") ∧
      make_controller_by_kind (some "foo")
        = make_controller (some "mpc") MPC_DEFAULTS) :=
  ⟨by decide, by decide, by decide, by decide,
   make_controller_unknown_kind "foo" {} (by decide) (by decide) (by decide)
     (by decide)⟩

theorem foldl_set_enabled_shift (b : Bool) (xs : List ℕ) :
    ∀ (e : Engine) (es : List Engine),
      (xs.map Nat.succ).foldl (fun l i => Lander.set_engine_enabled l i b) (e :: es)
        = e :: xs.foldl (fun l i => Lander.set_engine_enabled l i b) es := by
  induction xs with
  | nil => intro e es; rfl
  | cons x rest ih =>
      intro e es
      simp only [List.map_cons, List.foldl_cons, Lander.set_engine_enabled]
      exact ih e _

theorem apply_engine_failure_nil (count : ℕ) :
    EmergencyScenarioHandler.apply_engine_failure count [] = [] := by
  simp [EmergencyScenarioHandler.apply_engine_failure]

theorem apply_engine_failure_zero (engines : List Engine) :
    EmergencyScenarioHandler.apply_engine_failure 0 engines = engines := by
  simp [EmergencyScenarioHandler.apply_engine_failure]

theorem apply_engine_failure_succ_cons (count : ℕ) (e : Engine)
    (es : List Engine) :
    EmergencyScenarioHandler.apply_engine_failure (count + 1) (e :: es)
      = { e with enabled := false, throttle := 0 }
        :: EmergencyScenarioHandler.apply_engine_failure count es := by
  unfold EmergencyScenarioHandler.apply_engine_failure
  have hmin : min (count + 1) (e :: es).length = min count es.length + 1 := by
    simp [Nat.succ_min_succ]
  rw [hmin, List.range_succ_eq_map]
  simp only [List.foldl_cons, Lander.set_engine_enabled]
  exact foldl_set_enabled_shift false (List.range (min count es.length))
    { e with enabled := false, throttle := if false then e.throttle else 0 } es

theorem apply_engine_failure_take_drop (engines : List Engine) :
    ∀ count : ℕ,
      EmergencyScenarioHandler.apply_engine_failure count engines
        = (engines.take (min count engines.length)).map
            (fun e => { e with enabled := false, throttle := 0 })
          ++ engines.drop (min count engines.length) := by
  induction engines with
  | nil => intro count; simp [apply_engine_failure_nil]
  | cons e es ih =>
      intro count
      cases count with
      | zero => simp [apply_engine_failure_zero]
      | succ k =>
          rw [apply_engine_failure_succ_cons, ih k]
          simp [Nat.succ_min_succ]

theorem foldl_enable_all (engines : List Engine) :
    (List.range engines.length).foldl
        (fun es i => Lander.set_engine_enabled es i true) engines
      = engines.map (fun e => { e with enabled := true }) := by
  induction engines with
  | nil => rfl
  | cons e es ih =>
      have hlen : (e :: es).length = es.length + 1 := rfl
      rw [hlen, List.range_succ_eq_map]
      simp only [List.foldl_cons, Lander.set_engine_enabled]
      rw [foldl_set_enabled_shift true (List.range es.length)]
      simp [ih]

theorem reset_engine_failure_take_drop (count : ℕ) (engines : List Engine) :
    EmergencyScenarioHandler.reset_engine_failure count engines
      = (engines.take (min count engines.length)).map
          (fun e => { e with enabled := false, throttle := 0 })
        ++ (engines.drop (min count engines.length)).map
            (fun e => { e with enabled := true }) := by
  unfold EmergencyScenarioHandler.reset_engine_failure
  rw [foldl_enable_all, apply_engine_failure_take_drop]
  have hlen : (engines.map (fun e => { e with enabled := true })).length
      = engines.length := List.length_map _ _
  rw [hlen, ← List.map_take, ← List.map_drop, List.map_map]
  rfl

theorem filter_enabled_map_disable (l : List Engine) :
    (l.map (fun e => { e with enabled := false, throttle := 0 })).filter
        (fun e => e.enabled) = [] := by
  induction l with
  | nil => rfl
  | cons e es ih => simpa using ih

theorem filter_enabled_map_enable (l : List Engine) :
    (l.map (fun e => { e with enabled := true })).filter
        (fun e => e.enabled)
      = l.map (fun e => { e with enabled := true }) := by
  induction l with
  | nil => rfl
  | cons e es ih => simpa using ih

/-- C7: the `engine_failure{count}` scenario disables exactly the first
`min(count, n)` engines.  For *every* input state (no freshness assumption):
applying the initial scenario yields the first `min(count, n)` engines
disabled (throttle zeroed) followed by the rest untouched, and `reset()`
yields the first `min(count, n)` disabled followed by the rest re-enabled —
so after every `reset()`, in particular from the reachable state in which
the first `min(count, n)` engines are already disabled, exactly
`n − min(count, n)` engines are enabled.  When all engines start enabled
(the constructed state), the same exact count also holds immediately after
construction. -/
theorem engine_failure_exact (engines : List Engine) (count : ℕ) :
    EmergencyScenarioHandler.apply_engine_failure count engines
      = (engines.take (min count engines.length)).map
          (fun e => { e with enabled := false, throttle := 0 })
        ++ engines.drop (min count engines.length) ∧
    EmergencyScenarioHandler.reset_engine_failure count engines
      = (engines.take (min count engines.length)).map
          (fun e => { e with enabled := false, throttle := 0 })
        ++ (engines.drop (min count engines.length)).map
            (fun e => { e with enabled := true }) ∧
    ((EmergencyScenarioHandler.reset_engine_failure count engines).filter
        (fun e => e.enabled)).length
      = engines.length - min count engines.length ∧
    ((∀ e ∈ engines, e.enabled = true) →
      ((EmergencyScenarioHandler.apply_engine_failure count engines).filter
          (fun e => e.enabled)).length
        = engines.length - min count engines.length) := by
  refine ⟨apply_engine_failure_take_drop engines count,
    reset_engine_failure_take_drop count engines, ?_, ?_⟩
  · rw [reset_engine_failure_take_drop count engines, List.filter_append,
      filter_enabled_map_disable, filter_enabled_map_enable]
    simp [List.length_drop]
  · intro hfresh
    rw [apply_engine_failure_take_drop engines count, List.filter_append,
      filter_enabled_map_disable]
    have hdrop : (engines.drop (min count engines.length)).filter
        (fun e => e.enabled) = engines.drop (min count engines.length) := by
      rw [List.filter_eq_self]
      intro e he
      exact hfresh e (List.mem_of_mem_drop he)
    rw [hdrop]
    simp [List.length_drop]

/-- C7 witness: on a 9-engine vehicle with `count = 1`, construction from
the fresh (all-enabled) list leaves exactly 8 engines enabled, and a
`reset()` from the reachable post-construction state — whose first engine
is already disabled — also leaves exactly 8 engines enabled. -/
theorem engine_failure_exact_witness :
    ((EmergencyScenarioHandler.apply_engine_failure 1
        (List.replicate 9 merlin_engine)).filter
        (fun e => e.enabled)).length = 8 ∧
    ((EmergencyScenarioHandler.reset_engine_failure 1
        (EmergencyScenarioHandler.apply_engine_failure 1
          (List.replicate 9 merlin_engine))).filter
        (fun e => e.enabled)).length = 8 := by
  have hfresh : ∀ e ∈ List.replicate 9 merlin_engine, e.enabled = true := by
    intro e he
    rw [List.eq_of_mem_replicate he]
    rfl
  constructor
  · rw [(engine_failure_exact (List.replicate 9 merlin_engine) 1).2.2.2 hfresh]
    rfl
  · rw [(engine_failure_exact
      (EmergencyScenarioHandler.apply_engine_failure 1
        (List.replicate 9 merlin_engine)) 1).2.2.1]
    rfl

theorem clip_to_forall₂ (v : List ℝ) :
    ∀ (engines : List AllocEngine), v.length = engines.length →
      (∀ e ∈ engines, 0 ≤ e.max_thrust) →
      List.Forall₂
        (fun r e => 0 ≤ r ∧ r ≤ e.max_thrust ∧ (e.enabled = false → r = 0))
        (ThrustAllocator.clip_to v (ThrustAllocator.max_thrusts engines))
        engines := by
  induction v with
  | nil =>
      intro engines hlen _
      cases engines with
      | nil => constructor
      | cons e es => simp at hlen
  | cons a v ih =>
      intro engines hlen hmax
      cases engines with
      | nil => simp at hlen
      | cons e es =>
          have hme : 0 ≤ e.max_thrust := hmax e (List.mem_cons_self e es)
          have heff0 : 0 ≤ ThrustAllocator.effective_max e := by
            unfold ThrustAllocator.effective_max
            by_cases hb : e.enabled <;> simp [hb, hme]
          have heffle : ThrustAllocator.effective_max e ≤ e.max_thrust := by
            unfold ThrustAllocator.effective_max
            by_cases hb : e.enabled <;> simp [hb, hme]
          simp only [ThrustAllocator.clip_to, ThrustAllocator.max_thrusts,
            List.map_cons, List.zipWith_cons_cons]
          refine List.Forall₂.cons ⟨le_min (le_max_right a 0) heff0,
            le_trans (min_le_right _ _) heffle, ?_⟩
            (ih es (by simpa using hlen)
              (fun e' he' => hmax e' (List.mem_cons_of_mem _ he')))
          intro hdis
          have heq0 : ThrustAllocator.effective_max e = 0 := by
            unfold ThrustAllocator.effective_max
            simp [hdis]
          rw [heq0]
          exact min_eq_right (le_max_right a 0)

theorem forall₂_bounds_sum_le (l : List ℝ) (engines : List AllocEngine)
    (h : List.Forall₂
      (fun r e => 0 ≤ r ∧ r ≤ e.max_thrust ∧ (e.enabled = false → r = 0))
      l engines) :
    l.sum ≤ ((engines.filter (fun e => e.enabled)).map
      (fun e => e.max_thrust)).sum := by
  induction h with
  | nil => simp
  | @cons r e l' es' hpe hrest ih =>
      by_cases hb : e.enabled
      · simp only [List.filter_cons, hb, if_true, List.map_cons, List.sum_cons,
          decide_eq_true hb]
        exact add_le_add hpe.2.1 ih
      · have hr0 : r = 0 := hpe.2.2 (by simpa using hb)
        simp only [List.filter_cons, List.sum_cons, hr0]
        simpa [hb] using ih

theorem allocate_eq_clip (engines : List AllocEngine) (F τ : Vec3) (x : List ℝ)
    (h0 : ¬ engines.length = 0) (hx : x.length = engines.length) :
    ∃ y : List ℝ, y.length = engines.length ∧
      ThrustAllocator.allocate engines F τ x
        = ThrustAllocator.clip_to y (ThrustAllocator.max_thrusts engines) := by
  have hmx : (ThrustAllocator.max_thrusts engines).length = engines.length := by
    simp [ThrustAllocator.max_thrusts]
  unfold ThrustAllocator.allocate
  rw [if_neg h0]
  dsimp only
  split_ifs with hA hB hC
  · refine ⟨_, ?_, rfl⟩
    simp [ThrustAllocator.clip_to, ThrustAllocator.max_thrusts, hx]
  · refine ⟨_, ?_, rfl⟩
    simp [ThrustAllocator.clip_to, ThrustAllocator.max_thrusts, hx]
  · refine ⟨_, ?_, rfl⟩
    simp [ThrustAllocator.clip_to, ThrustAllocator.max_thrusts, hx]
  · refine ⟨_, ?_, rfl⟩
    simp [ThrustAllocator.clip_to, ThrustAllocator.max_thrusts, hx]

theorem allocate_forall₂ (engines : List AllocEngine) (F τ : Vec3) (x : List ℝ)
    (hx : x.length = engines.length) (hm : ∀ e ∈ engines, 0 ≤ e.max_thrust) :
    List.Forall₂
      (fun r e => 0 ≤ r ∧ r ≤ e.max_thrust ∧ (e.enabled = false → r = 0))
      (ThrustAllocator.allocate engines F τ x) engines := by
  by_cases h0 : engines.length = 0
  · have hnil : engines = [] := List.length_eq_zero.mp h0
    subst hnil
    unfold ThrustAllocator.allocate
    simp
  · obtain ⟨y, hy, heq⟩ := allocate_eq_clip engines F τ x h0 hx
    rw [heq]
    exact clip_to_forall₂ y engines hy hm

/-- C3: for every desired force and torque (of any sign), every engine list
with non-negative capacities and every least-squares solution the solver may
return, `allocate` produces per-engine thrusts with `0 ≤ x_i ≤ max_thrust_i`,
zero on disabled engines, and total no larger than the summed capacity of
the enabled engines. -/
theorem allocate_bounds (engines : List AllocEngine) (F τ : Vec3) (x : List ℝ)
    (hx : x.length = engines.length) (hm : ∀ e ∈ engines, 0 ≤ e.max_thrust) :
    List.Forall₂
      (fun r e => 0 ≤ r ∧ r ≤ e.max_thrust ∧ (e.enabled = false → r = 0))
      (ThrustAllocator.allocate engines F τ x) engines ∧
    (ThrustAllocator.allocate engines F τ x).sum
      ≤ ((engines.filter (fun e => e.enabled)).map
        (fun e => e.max_thrust)).sum := by
  have h := allocate_forall₂ engines F τ x hx hm
  exact ⟨h, forall₂_bounds_sum_le _ _ h⟩

/-- C3 witness: `allocate_bounds` on a single enabled engine of capacity 2
pointing up, desired force (0, 3, 0), zero torque, raw solution [5]. -/
theorem allocate_bounds_witness :
    ([(5 : ℝ)].length = [sample_alloc_engine].length ∧
      (∀ e ∈ [sample_alloc_engine], 0 ≤ e.max_thrust)) ∧
    (List.Forall₂
        (fun r e => 0 ≤ r ∧ r ≤ e.max_thrust ∧ (e.enabled = false → r = 0))
        (ThrustAllocator.allocate [sample_alloc_engine] ⟨0, 3, 0⟩ ⟨0, 0, 0⟩ [5])
        [sample_alloc_engine] ∧
      (ThrustAllocator.allocate [sample_alloc_engine] ⟨0, 3, 0⟩ ⟨0, 0, 0⟩ [5]).sum
        ≤ (([sample_alloc_engine].filter (fun e => e.enabled)).map
          (fun e => e.max_thrust)).sum) := by
  have hm : ∀ e ∈ [sample_alloc_engine], 0 ≤ e.max_thrust := by
    intro e he
    rw [List.mem_singleton] at he
    subst he
    norm_num [sample_alloc_engine]
  exact ⟨⟨rfl, hm⟩, allocate_bounds [sample_alloc_engine] ⟨0, 3, 0⟩ ⟨0, 0, 0⟩ [5]
    rfl hm⟩

/-- C4 counterexample: with mass 1, gravity 1, desired acceleration −2 and
thrust direction (0, 1, 0), `Simulator.step` hands the allocator a force
vector with negative component along the thrust direction — the claimed
clamp `F = max(0, mass·(a+g))` does not exist in `core/Simulator.py`. -/
theorem desired_force_clamp_counterexample :
    (Simulator.desired_force_vec 1 1 (-2) ⟨0, 1, 0⟩).y < 0 := by
  have hn : Vec3.norm ⟨0, 1, 0⟩ = 1 := by
    show Real.sqrt (Vec3.normSq ⟨0, 1, 0⟩) = 1
    unfold Vec3.normSq
    rw [show (0 : ℝ) ^ 2 + 1 ^ 2 + 0 ^ 2 = 1 by norm_num, Real.sqrt_one]
  unfold Simulator.desired_force_vec
  simp only [hn]
  norm_num

/-- C4 (amended): the required total thrust `mass·(a_desired+g)` is handed
to the allocator unclamped (the desired force vector is the normalised
thrust direction scaled by that signed quantity); non-negativity of the
per-engine thrusts is enforced downstream by the allocator's clipping, not
by `Simulator.step`. -/
theorem desired_force_unclamped (mass g a : ℝ) (tv : Vec3)
    (engines : List AllocEngine) (τ : Vec3) (x : List ℝ)
    (hx : x.length = engines.length) (hm : ∀ e ∈ engines, 0 ≤ e.max_thrust) :
    Simulator.desired_force_vec mass g a tv
      = Vec3.smul (mass * (a + g) / (tv.norm + 1 / 10 ^ 12)) tv ∧
    List.Forall₂ (fun r (_ : AllocEngine) => 0 ≤ r)
      (ThrustAllocator.allocate engines
        (Simulator.desired_force_vec mass g a tv) τ x) engines := by
  constructor
  · unfold Simulator.desired_force_vec Vec3.smul
    simp only [Vec3.mk.injEq]
    refine ⟨by ring, by ring, by ring⟩
  · exact List.Forall₂.imp (fun r e hre => hre.1)
      (allocate_forall₂ engines _ τ x hx hm)

/-- C4 witness: `desired_force_unclamped` at mass 1, g 1, a −2, direction
(0, 1, 0) over the single-engine list. -/
theorem desired_force_unclamped_witness :
    ([(5 : ℝ)].length = [sample_alloc_engine].length ∧
      (∀ e ∈ [sample_alloc_engine], 0 ≤ e.max_thrust)) ∧
    (Simulator.desired_force_vec 1 1 (-2) ⟨0, 1, 0⟩
        = Vec3.smul (1 * (-2 + 1) / (Vec3.norm ⟨0, 1, 0⟩ + 1 / 10 ^ 12))
            ⟨0, 1, 0⟩ ∧
      List.Forall₂ (fun r (_ : AllocEngine) => 0 ≤ r)
        (ThrustAllocator.allocate [sample_alloc_engine]
          (Simulator.desired_force_vec 1 1 (-2) ⟨0, 1, 0⟩) ⟨0, 0, 0⟩ [5])
        [sample_alloc_engine]) := by
  have hm : ∀ e ∈ [sample_alloc_engine], 0 ≤ e.max_thrust := by
    intro e he
    rw [List.mem_singleton] at he
    subst he
    norm_num [sample_alloc_engine]
  exact ⟨⟨rfl, hm⟩,
    desired_force_unclamped 1 1 (-2) ⟨0, 1, 0⟩ [sample_alloc_engine]
      ⟨0, 0, 0⟩ [5] rfl hm⟩

/-- C10: the direction stored by `Engine.__init__` always has unit norm: it
is the input scaled by the inverse of its norm when that norm is positive,
and the upward unit vector (0, 1, 0) when the input has zero norm. -/
theorem engine_direction_unit (v : Vec3) :
    (Engine.init_direction v).norm = 1 ∧
    (0 < v.norm ∧ Engine.init_direction v
        = ⟨v.x / v.norm, v.y / v.norm, v.z / v.norm⟩ ∨
      v.norm = 0 ∧ Engine.init_direction v = ⟨0, 1, 0⟩) := by
  have hnn : 0 ≤ v.normSq := by
    unfold Vec3.normSq
    positivity
  by_cases h : 0 < v.norm
  · have hs0 : v.normSq ≠ 0 := by
      intro hz
      rw [Vec3.norm, hz, Real.sqrt_zero] at h
      exact lt_irrefl 0 h
    have hn0 : v.norm ≠ 0 := ne_of_gt h
    have hsq : v.norm ^ 2 = v.normSq := Real.sq_sqrt hnn
    constructor
    · unfold Engine.init_direction
      rw [if_pos h]
      show Real.sqrt (Vec3.normSq ⟨v.x / v.norm, v.y / v.norm, v.z / v.norm⟩) = 1
      have hcomp : Vec3.normSq ⟨v.x / v.norm, v.y / v.norm, v.z / v.norm⟩
          = v.normSq / v.norm ^ 2 := by
        unfold Vec3.normSq
        field_simp
      rw [hcomp, hsq, div_self hs0, Real.sqrt_one]
    · left
      refine ⟨h, ?_⟩
      unfold Engine.init_direction
      rw [if_pos h]
  · have h0 : v.norm = 0 := le_antisymm (not_lt.mp h) (Real.sqrt_nonneg _)
    constructor
    · unfold Engine.init_direction
      rw [if_neg h]
      show Real.sqrt (Vec3.normSq ⟨0, 1, 0⟩) = 1
      unfold Vec3.normSq
      rw [show (0 : ℝ) ^ 2 + 1 ^ 2 + 0 ^ 2 = 1 by norm_num, Real.sqrt_one]
    · right
      refine ⟨h0, ?_⟩
      unfold Engine.init_direction
      rw [if_neg h]

end SpaceLander
